import Mathlib

set_option maxHeartbeats 1000000

/-!
Shallow embedding of scripts/create_tokens.py: cookie-string merging with
barrier (WAF) cookies, account ingestion from the remote cookie API, and the
token lifecycle client with its batch orchestration (create, search-by-keyword,
paginated list, delete).  HTTP interactions are modelled as explicit outcome
values supplied by an environment record; the random suffix generator is
modelled as an explicit stream of draws from the source alphabet.
-/

/-- Python dict with string keys, modelled as an insertion-ordered association
list without duplicate keys; assignment replaces the value in place when the
key exists, otherwise appends at the end (CPython dict semantics). -/
def dinsert : List (String × String) → String → String → List (String × String)
  | [], k, v => [(k, v)]
  | p :: rest, k, v => if p.1 = k then (k, v) :: rest else p :: dinsert rest k v

/-- Lookup in the dict model (first entry with the key; keys are unique for
dicts built with dinsert). -/
def dictGet : List (String × String) → String → Option String
  | [], _ => none
  | p :: rest, k => if p.1 = k then some p.2 else dictGet rest k

/-- Python dict.update: assign every pair of u into d, in order. -/
def dictUpdate (d u : List (String × String)) : List (String × String) :=
  u.foldl (fun acc kv => dinsert acc kv.1 kv.2) d

/-- Python str.join over a list of strings. -/
def joinSep (sep : String) : List String → String
  | [] => ""
  | [x] => x
  | x :: y :: rest => x ++ sep ++ joinSep sep (y :: rest)

/-- Python str.strip (whitespace at both ends). -/
def trimChars (s : String) : String :=
  String.mk (((s.data.dropWhile Char.isWhitespace).reverse.dropWhile Char.isWhitespace).reverse)

/-- Python str.split on a single separator character. -/
def splitChar (c : Char) : List Char → List (List Char)
  | [] => [[]]
  | x :: xs =>
    let r := splitChar c xs
    if x = c then [] :: r
    else
      match r with
      | [] => [[x]]
      | h :: t => (x :: h) :: t

/-- Python str.startswith. -/
def pyStartsWith (s pre : String) : Bool := List.isPrefixOf pre.data s.data

/-- Helper for Python substring containment over character lists. -/
def listContainsSub (sub : List Char) : List Char → Bool
  | [] => List.isPrefixOf sub []
  | c :: rest => List.isPrefixOf sub (c :: rest) || listContainsSub sub rest

/-- Python `sub in s` substring test. -/
def pyContains (s sub : String) : Bool := listContainsSub sub.data s.data

/-- Python truthiness of an optional string (None and the empty string are falsy). -/
def optTruthy : Option String → Bool
  | none => false
  | some s => s != ""

/-- Python truthiness of an optional int list (None and the empty list are falsy). -/
def optListTruthy : Option (List Int) → Bool
  | none => false
  | some [] => false
  | some (_ :: _) => true

/-- Parse an original cookie string into a dict: split on ";", strip each part,
keep parts containing "=", split at the first "=", strip key and value
(merge_waf_cookies, src/scripts/create_tokens.py lines 110-117). -/
def parseCookies (original_cookie : String) : List (String × String) :=
  (splitChar ';' original_cookie.data).foldl
    (fun existing partChars =>
      let part := trimChars (String.mk partChars)
      if part.data.contains '=' then
        dinsert existing
          (trimChars (String.mk (part.data.takeWhile (fun ch => ch != '='))))
          (trimChars (String.mk ((part.data.dropWhile (fun ch => ch != '=')).drop 1)))
      else existing)
    []

/-- merge_waf_cookies (lines 105-122): if the WAF cookie set is empty return the
original string unchanged; otherwise overlay the WAF cookies onto the parsed
original (WAF wins on collision) and reserialize with "; ". -/
def merge_waf_cookies (original_cookie : String) (waf_cookies : List (String × String)) : String :=
  if waf_cookies = [] then original_cookie
  else
    joinSep "; " ((dictUpdate (parseCookies original_cookie) waf_cookies).map
      (fun kv => kv.1 ++ "=" ++ kv.2))

/-- One item of the search response data array (name and key default to ""). -/
structure SItem where
  name : String
  key : String
deriving DecidableEq

/-- JSON body of the search endpoint response. -/
structure SearchBody where
  success : Bool
  data : List SItem
deriving DecidableEq

/-- Outcome of the search HTTP call: transport exception, or a response with a
status code and a JSON parse result. -/
inductive SearchHttp where
  | exc (e : String)
  | resp (status : Nat) (parse : Except String SearchBody)

/-- Items kept by the dict comprehension in search_tokens: Python truthiness
filter `if t.get("name") and t.get("key")`. -/
def validSearchItems (l : List SItem) : List SItem :=
  l.filter (fun t => t.name != "" && t.key != "")

/-- search_tokens (lines 265-295): on HTTP 200 with a service success flag,
build the {name: "sk-" + key} dict over items with truthy name and key;
on any failure return the empty dict. -/
def search_tokens : SearchHttp → List (String × String)
  | SearchHttp.exc _ => []
  | SearchHttp.resp status p =>
    if status = 200 then
      match p with
      | Except.error _ => []
      | Except.ok body =>
        if body.success then
          dictUpdate [] ((validSearchItems body.data).map (fun t => (t.name, "sk-" ++ t.key)))
        else []
    else []

/-- JSON body of the create endpoint response: success flag, optional message,
the string form of the whole body (str(data)), and the four probed key paths. -/
structure CreateBody where
  success : Bool
  message : Option String
  raw : String
  dataKey : String
  topKey : String
  dataToken : String
  topToken : String
deriving DecidableEq

/-- Outcome of the create HTTP call. -/
inductive CreateHttp where
  | exc (e : String)
  | resp (status : Nat) (parse : Except String CreateBody)

/-- Result value of create_token. -/
inductive CreateResult where
  | ok (key : String)
  | err (error : String)
deriving DecidableEq

/-- Python `a or b` on strings: first truthy operand. -/
def pyOrStr (a b : String) : String := if a != "" then a else b

/-- create_token (lines 297-339): success iff HTTP 200 and the body success
flag; the key is probed along four paths; failure carries the message field,
else str(data), else the exception string. -/
def create_token : CreateHttp → CreateResult
  | CreateHttp.exc e => CreateResult.err e
  | CreateHttp.resp status p =>
    match p with
    | Except.error e => CreateResult.err e
    | Except.ok d =>
      if (status == 200) && d.success then
        CreateResult.ok (pyOrStr d.dataKey (pyOrStr d.topKey (pyOrStr d.dataToken d.topToken)))
      else CreateResult.err (d.message.getD d.raw)

/-- Whether a create result is a success. -/
def isCreateSuccess : CreateResult → Bool
  | CreateResult.ok _ => true
  | CreateResult.err _ => false

/-- string.ascii_lowercase + string.digits, the alphabet of random suffixes. -/
def tokenAlphabet : List Char := "abcdefghijklmnopqrstuvwxyz0123456789".data

/-- One random character: an index drawn from the 36-character alphabet. -/
def randChar (i : Fin 36) : Char := tokenAlphabet.getD i.val 'a'

/-- random.choices(alphabet, k=8) joined: the 8-character suffix for iteration
i, consuming draws 8*i .. 8*i+7 of the stream. -/
def randSuffix (draw : Nat → Fin 36) (i : Nat) : String :=
  String.mk ((List.range 8).map (fun j => randChar (draw (8 * i + j))))

/-- A created-token record as accumulated by the orchestrator. -/
structure CreatedToken where
  name : String
  key : String
  user_id : String
deriving DecidableEq

/-- Environment for batch_create: the HTTP outcome of the i-th create call and
of a search call by keyword. -/
structure CEnv where
  createHttp : Nat → CreateHttp
  searchHttp : String → SearchHttp

/-- Name generated at iteration i of batch_create (lines 409-414): the fixed
literal "cc" when count == 1, else prefix_randomsuffix. -/
def tokenNameFor (pfx : String) (count : Int) (draw : Nat → Fin 36) (i : Nat) : String :=
  if count = 1 then "cc" else pfx ++ "_" ++ randSuffix draw i

/-- batch_create (lines 395-447).  Returns (tokens returned, names passed to
create in call order, keywords passed to search in call order, updated
created_tokens accumulator). -/
def batch_create (env : CEnv) (user_id pfx : String) (count : Int)
    (draw : Nat → Fin 36) (created_tokens : List CreatedToken) :
    List CreatedToken × List String × List String × List CreatedToken :=
  let idxs := (List.range count.toNat).map (fun j => j + 1)
  let createCalls := idxs.map (tokenNameFor pfx count draw)
  let created_names :=
    (idxs.filter (fun i => isCreateSuccess (create_token (env.createHttp i)))).map
      (tokenNameFor pfx count draw)
  let kw := if count = 1 then "cc" else pfx
  let searchCalls := if created_names = [] then [] else [kw]
  let key_map := search_tokens (env.searchHttp kw)
  let tokens := created_names.map
    (fun n => { name := n, key := (dictGet key_map n).getD "", user_id := user_id : CreatedToken })
  (tokens, createCalls, searchCalls, created_tokens ++ tokens)

/-- A token as returned by the list endpoint (id and name). -/
structure DToken where
  id : Int
  name : String
deriving DecidableEq

/-- The batch_delete pagination loop (lines 492-501): fetch page, stop on an
empty page, accumulate, stop when a page has fewer than 100 items, else
advance.  Returns (accumulated tokens, number of page requests issued); the
fuel argument bounds the recursion depth of the embedding. -/
def listPagesLoop (pages : Nat → List DToken) : Nat → Nat → List DToken × Nat
  | 0, _ => ([], 0)
  | fuel + 1, page =>
    let toks := pages page
    if toks = [] then ([], 1)
    else if toks.length < 100 then (toks, 1)
    else
      let r := listPagesLoop pages fuel (page + 1)
      (toks ++ r.1, r.2 + 1)

/-- The filter chain of batch_delete (lines 506-515), translated branch by
branch from the if/elif chain. -/
def delFilter (pfx kw : Option String) (t : DToken) : Bool :=
  if optTruthy pfx && pyStartsWith t.name (pfx.getD "") then true
  else if optTruthy kw && pyContains t.name (kw.getD "") then true
  else if !optTruthy pfx && !optTruthy kw then true
  else false

/-- Candidate selection of batch_delete (lines 484-515): a truthy token_ids
list is used directly (names shown as placeholders), otherwise all pages are
fetched and filtered. -/
def selectCandidates (pages : Nat → List DToken) (fuel : Nat)
    (tokenIds : Option (List Int)) (pfx kw : Option String) : List DToken :=
  if optListTruthy tokenIds then
    (tokenIds.getD []).map (fun tid => { id := tid, name := "(ID: " ++ toString tid ++ ")" })
  else
    (listPagesLoop pages fuel 0).1.filter (delFilter pfx kw)

/-- Environment for batch_delete: the page contents served by the list
endpoint and the success of a delete call by token id. -/
structure DelEnv where
  pages : Nat → List DToken
  deleteOk : Int → Bool

/-- Return value of batch_delete: the candidate list (empty-candidates and
dry-run paths) or the list of successfully deleted ids. -/
inductive BatchDeleteResult where
  | tokens (l : List DToken)
  | ids (l : List Int)
deriving DecidableEq

/-- batch_delete (lines 449-557).  Returns (result, ids passed to delete in
call order). -/
def batch_delete (env : DelEnv) (fuel : Nat) (tokenIds : Option (List Int))
    (pfx kw : Option String) (dry_run : Bool) : BatchDeleteResult × List Int :=
  let cand := selectCandidates env.pages fuel tokenIds pfx kw
  if cand = [] then (BatchDeleteResult.tokens [], [])
  else if dry_run then (BatchDeleteResult.tokens cand, [])
  else
    (BatchDeleteResult.ids ((cand.filter (fun t => env.deleteOk t.id)).map (fun t => t.id)),
     cand.map (fun t => t.id))

/-- One entry of an item's cookies_data list (name and value default to ""). -/
structure CookieEntry where
  name : String
  value : String
deriving DecidableEq

/-- One item of the cookie API response: whether it is a JSON dict, its
detection status, display name, cookie entries, whether local_storage_data and
its user field are dicts, and the nested user id (none when absent). -/
structure ApiItem where
  isDict : Bool
  detection_status : String
  custom_name : String
  cookies_data : List CookieEntry
  lsIsDict : Bool
  userIsDict : Bool
  userId : Option Int
deriving DecidableEq

/-- An account record produced by fetch_cookies_from_api. -/
structure Account where
  cookie : String
  user_id : Option String
  name : String
deriving DecidableEq

/-- The fixed target domain of the cookie API (line 33). -/
def COOKIE_API_DOMAIN : String := "anyrouter.top"

/-- Query parameters of the cookie API request (lines 165-170). -/
structure CookieApiParams where
  include_values : String
  domain : String
  page : Nat
  per_page : Nat
deriving DecidableEq

/-- The concrete parameters sent by fetch_cookies_from_api. -/
def cookieApiParams : CookieApiParams :=
  { include_values := "true", domain := COOKIE_API_DOMAIN, page := 1, per_page := 200 }

/-- Cookie parts built from an item (lines 196-201): name=value for entries
whose name and value are both truthy. -/
def cookiePairs (l : List CookieEntry) : List String :=
  (l.filter (fun c => c.name != "" && c.value != "")).map (fun c => c.name ++ "=" ++ c.value)

/-- user_id extraction (lines 208-216): from local_storage_data.user.id when
both levels are dicts and the id is truthy, stringified; otherwise unset. -/
def extractUserId (it : ApiItem) : Option String :=
  if it.lsIsDict && it.userIsDict then
    match it.userId with
    | some n => if n != 0 then some (toString n) else none
    | none => none
  else none

/-- Processing of one item of the cookie API response (lines 180-228): skip
non-dict items, items with detection status "error"/"failed", items with an
empty cookies_data list, and items with no truthy name=value pair; otherwise
build the account record. -/
def processItem (it : ApiItem) : Option Account :=
  if !it.isDict then none
  else if it.detection_status = "error" ∨ it.detection_status = "failed" then none
  else if it.cookies_data = [] then none
  else if cookiePairs it.cookies_data = [] then none
  else some { cookie := joinSep "; " (cookiePairs it.cookies_data),
              user_id := extractUserId it,
              name := it.custom_name }

/-- fetch_cookies_from_api (lines 162-235), item-processing part: the accounts
produced from the fetched items, in order. -/
def fetch_cookies_from_api (items : List ApiItem) : List Account :=
  items.filterMap processItem

/-- Example list-endpoint contents for the delete claims: one page with three
tokens, further pages empty. -/
def exPages : Nat → List DToken := fun p =>
  if p = 0 then [{ id := 1, name := "a_x" }, { id := 2, name := "b_y" }, { id := 3, name := "a_z" }]
  else []

/-- Example delete environment. -/
def exDelEnv : DelEnv := { pages := exPages, deleteOk := fun _ => true }

/-- Example successful create response body. -/
def exCreateBody : CreateBody :=
  { success := true, message := none, raw := "r", dataKey := "K1",
    topKey := "", dataToken := "", topToken := "" }

/-- Example search body with one valid item. -/
def exSearchBodyA : SearchBody := { success := true, data := [{ name := "a", key := "k1" }] }

/-- Example search body whose only item has an empty key. -/
def exSearchBodyEmptyKey : SearchBody := { success := true, data := [{ name := "a", key := "" }] }

/-- Example create environment: every create call succeeds, search returns one
valid item. -/
def exCEnv : CEnv :=
  { createHttp := fun _ => CreateHttp.resp 200 (Except.ok exCreateBody),
    searchHttp := fun _ => SearchHttp.resp 200 (Except.ok exSearchBodyA) }

/-- A constant randomness stream: every draw picks alphabet index 0. -/
def draw0 : Nat → Fin 36 := fun _ => 0

/-- Example API item whose nested user id is present but zero. -/
def exItemZeroId : ApiItem :=
  { isDict := true, detection_status := "", custom_name := "x",
    cookies_data := [{ name := "n", value := "v" }],
    lsIsDict := true, userIsDict := true, userId := some 0 }

/-- Example API item with detection status "error". -/
def exItemErr : ApiItem :=
  { isDict := true, detection_status := "error", custom_name := "y",
    cookies_data := [{ name := "n", value := "v" }],
    lsIsDict := true, userIsDict := true, userId := some 7 }

/-- Example valid API item with a nonzero user id. -/
def exItemOk : ApiItem :=
  { isDict := true, detection_status := "valid", custom_name := "z",
    cookies_data := [{ name := "n", value := "v" }, { name := "", value := "w" }],
    lsIsDict := true, userIsDict := true, userId := some 7 }

/-- Lookup after a single dict assignment. -/
theorem dictGet_dinsert (d : List (String × String)) (k v k' : String) :
    dictGet (dinsert d k v) k' = if k' = k then some v else dictGet d k' := by
  induction d with
  | nil =>
    by_cases h : k' = k
    · simp [dinsert, dictGet, h]
    · simp [dinsert, dictGet, h, Ne.symm h]
  | cons p rest ih =>
    by_cases hp : p.1 = k
    · by_cases h : k' = k
      · simp [dinsert, dictGet, hp, h]
      · simp [dinsert, dictGet, hp, h, Ne.symm h]
    · by_cases h : p.1 = k'
      · have hk : ¬ k' = k := fun he => hp (h.trans he)
        simp [dinsert, dictGet, hp, h, hk]
      · simp [dinsert, dictGet, hp, h, ih]

/-- A dict lookup misses exactly when no entry has the key. -/
theorem dictGet_eq_none_iff (d : List (String × String)) (k : String) :
    dictGet d k = none ↔ ∀ p ∈ d, p.1 ≠ k := by
  induction d with
  | nil => simp [dictGet]
  | cons p rest ih => by_cases h : p.1 = k <;> simp [dictGet, h, ih]

/-- dict.update leaves keys outside the update set untouched. -/
theorem dictGet_update_notMem (u : List (String × String)) :
    ∀ (d : List (String × String)) (k : String),
      (∀ p ∈ u, p.1 ≠ k) → dictGet (dictUpdate d u) k = dictGet d k := by
  induction u with
  | nil => intro d k _; rfl
  | cons q rest ih =>
    intro d k h
    have hq : q.1 ≠ k := h q (List.mem_cons_self q rest)
    show dictGet (dictUpdate (dinsert d q.1 q.2) rest) k = dictGet d k
    rw [ih _ _ (fun p hp => h p (List.mem_cons_of_mem q hp)), dictGet_dinsert,
      if_neg (fun hh => hq hh.symm)]

/-- dict.update writes every pair of a duplicate-free update set. -/
theorem dictGet_update_mem (u : List (String × String)) :
    ∀ (d : List (String × String)) (kv : String × String),
      kv ∈ u → (u.map Prod.fst).Nodup → dictGet (dictUpdate d u) kv.1 = some kv.2 := by
  induction u with
  | nil => intro d kv h; cases h
  | cons q rest ih =>
    intro d kv hmem hnd
    rw [List.map_cons, List.nodup_cons] at hnd
    rcases List.mem_cons.mp hmem with he | hr
    · subst he
      have hnot : ∀ p ∈ rest, p.1 ≠ kv.1 := by
        intro p hp hpe
        exact hnd.1 (hpe ▸ List.mem_map_of_mem Prod.fst hp)
      show dictGet (dictUpdate (dinsert d kv.1 kv.2) rest) kv.1 = some kv.2
      rw [dictGet_update_notMem rest _ _ hnot, dictGet_dinsert, if_pos rfl]
    · exact ih _ kv hr hnd.2

/-- find? over an append tries the left list first. -/
theorem find_q_append {α : Type} (p : α → Bool) (l1 l2 : List α) :
    (l1 ++ l2).find? p = ((l1.find? p).orElse (fun _ => l2.find? p)) := by
  induction l1 with
  | nil => simp
  | cons a l ih => by_cases h : p a <;> simp [List.find?, h, ih, Option.orElse]

/-- Lookup in the dict built from a list of search items: the last item with
the queried name wins, as in a Python dict comprehension. -/
theorem dictGet_search_pairs (l : List SItem) :
    ∀ (d : List (String × String)) (n : String),
      dictGet (dictUpdate d (l.map (fun t => (t.name, "sk-" ++ t.key)))) n =
        ((l.reverse.find? (fun t => t.name == n)).map (fun t => "sk-" ++ t.key)).orElse
          (fun _ => dictGet d n) := by
  induction l with
  | nil => intro d n; simp [dictUpdate]
  | cons t rest ih =>
    intro d n
    show dictGet (dictUpdate (dinsert d t.name ("sk-" ++ t.key))
        (rest.map (fun t => (t.name, "sk-" ++ t.key)))) n = _
    rw [ih, List.reverse_cons, find_q_append]
    cases hf : rest.reverse.find? (fun t => t.name == n) with
    | some r => simp [Option.orElse]
    | none =>
      by_cases hn : t.name = n
      · simp [Option.orElse, List.find?, hn, dictGet_dinsert]
      · have hn2 : ¬ n = t.name := fun he => hn he.symm
        have hb : (t.name == n) = false := by simp [hn]
        simp [Option.orElse, List.find?, hb, hn2, dictGet_dinsert]

/-- Every random character is drawn from the fixed alphabet. -/
theorem randChar_mem (i : Fin 36) : randChar i ∈ tokenAlphabet := by
  have h : i.val < tokenAlphabet.length := by
    simp [tokenAlphabet]
  rw [randChar, List.getD_eq_getElem _ _ h]
  exact List.getElem_mem _

/-- The pagination loop issues exactly k+1 page requests when page p+k is the
first short page from p on (given enough fuel). -/
theorem listPagesLoop_stops (pages : Nat → List DToken) :
    ∀ (k fuel p : Nat),
      (∀ m, m < k → 100 ≤ (pages (p + m)).length) →
      (pages (p + k)).length < 100 → k < fuel →
      (listPagesLoop pages fuel p).2 = k + 1 := by
  intro k
  induction k with
  | zero =>
    intro fuel p _ hshort hf
    cases fuel with
    | zero => omega
    | succ f =>
      rw [Nat.add_zero] at hshort
      by_cases he : pages p = []
      · simp [listPagesLoop, he]
      · simp [listPagesLoop, he, hshort]
  | succ k ih =>
    intro fuel p hlong hshort hf
    cases fuel with
    | zero => omega
    | succ f =>
      have h0 : 100 ≤ (pages p).length := by
        have := hlong 0 (Nat.succ_pos k)
        rwa [Nat.add_zero] at this
      have hne : pages p ≠ [] := by
        intro he
        rw [he] at h0
        simp at h0
      have hnlt : ¬ (pages p).length < 100 := by omega
      have hlong2 : ∀ m, m < k → 100 ≤ (pages (p + 1 + m)).length := by
        intro m hm
        have harith : p + 1 + m = p + (m + 1) := by omega
        rw [harith]
        exact hlong (m + 1) (by omega)
      have hshort2 : (pages (p + 1 + k)).length < 100 := by
        have harith : p + 1 + k = p + (k + 1) := by omega
        rw [harith]
        exact hshort
      have hrec := ih f (p + 1) hlong2 hshort2 (by omega)
      simp [listPagesLoop, hne, hnlt, hrec]

/-- C4: merging barrier cookies into a cookie string keeps every barrier pair
(barrier wins on collision), keeps every original key absent from the barrier
set with its original value, and merging an empty barrier set returns the
original string unchanged, including when it is empty. -/
theorem c4_merge_cookies :
    (∀ (A : String) (B : List (String × String)), (B.map Prod.fst).Nodup →
       (∀ kv ∈ B, dictGet (dictUpdate (parseCookies A) B) kv.1 = some kv.2) ∧
       (∀ k, dictGet B k = none →
          dictGet (dictUpdate (parseCookies A) B) k = dictGet (parseCookies A) k) ∧
       (B ≠ [] → merge_waf_cookies A B =
          joinSep "; " ((dictUpdate (parseCookies A) B).map (fun kv => kv.1 ++ "=" ++ kv.2)))) ∧
    (∀ A, merge_waf_cookies A [] = A) := by
  constructor
  · intro A B hnd
    refine ⟨fun kv hkv => dictGet_update_mem B _ kv hkv hnd, fun k hk => ?_, fun hne => ?_⟩
    · exact dictGet_update_notMem B _ k ((dictGet_eq_none_iff B k).mp hk)
    · simp [merge_waf_cookies, hne]
  · intro A
    rfl

/-- C4 witness: the merge properties evaluated at a concrete cookie string and
barrier set. -/
theorem c4_merge_cookies_witness :
    dictGet (dictUpdate (parseCookies "a=1; b=2") [("b", "9"), ("c", "3")]) "b" = some "9" ∧
    dictGet (dictUpdate (parseCookies "a=1; b=2") [("b", "9"), ("c", "3")]) "a" =
      dictGet (parseCookies "a=1; b=2") "a" ∧
    merge_waf_cookies "" [] = "" :=
  ⟨(c4_merge_cookies.1 "a=1; b=2" [("b", "9"), ("c", "3")] (by decide)).1 ("b", "9") (by decide),
   (c4_merge_cookies.1 "a=1; b=2" [("b", "9"), ("c", "3")] (by decide)).2.1 "a" (by decide),
   c4_merge_cookies.2 ""⟩

/-- C5: with a non-empty candidate set and dry_run = true, batch_delete
returns the full candidate list and issues zero delete calls. -/
theorem c5_dry_run (env : DelEnv) (fuel : Nat) (tokenIds : Option (List Int))
    (pfx kw : Option String)
    (h : selectCandidates env.pages fuel tokenIds pfx kw ≠ []) :
    batch_delete env fuel tokenIds pfx kw true =
      (BatchDeleteResult.tokens (selectCandidates env.pages fuel tokenIds pfx kw), []) := by
  simp [batch_delete, h]

/-- C5 witness: the dry-run property at a concrete environment with three
candidates. -/
theorem c5_dry_run_witness :
    batch_delete exDelEnv 2 none none none true =
      (BatchDeleteResult.tokens (selectCandidates exDelEnv.pages 2 none none none), []) :=
  c5_dry_run exDelEnv 2 none none none (by decide)

/-- C6: the batch_delete pagination loop stops issuing page requests at the
first page shorter than 100 items (including an empty page): if page n is the
first short page, exactly n+1 page requests are issued, for any fuel bound
above n, so the number of requests is bounded. -/
theorem c6_pagination_terminates (pages : Nat → List DToken) (n fuel : Nat)
    (hlong : ∀ m, m < n → 100 ≤ (pages m).length)
    (hshort : (pages n).length < 100) (hf : n < fuel) :
    (listPagesLoop pages fuel 0).2 = n + 1 := by
  have h := listPagesLoop_stops pages n fuel 0
    (fun m hm => by simpa using hlong m hm) (by simpa using hshort) hf
  exact h

/-- C6 witness: an empty first page stops the loop after one request. -/
theorem c6_pagination_witness : (listPagesLoop (fun _ => ([] : List DToken)) 1 0).2 = 0 + 1 :=
  c6_pagination_terminates (fun _ => []) 0 1 (fun m hm => absurd hm (Nat.not_lt_zero m))
    (by simp) Nat.one_pos

/-- C9: an explicitly empty token_ids list behaves exactly like an absent one:
batch_delete pages through the list and applies the filters. -/
theorem c9_empty_ids_like_none (env : DelEnv) (fuel : Nat) (pfx kw : Option String)
    (dry : Bool) :
    batch_delete env fuel (some []) pfx kw dry = batch_delete env fuel none pfx kw dry := rfl

/-- The if/elif filter chain of batch_delete accepts exactly the disjunction
of its three conditions. -/
theorem delFilter_true_iff (pfx kw : Option String) (t : DToken) :
    delFilter pfx kw t = true ↔
      ((optTruthy pfx = true ∧ pyStartsWith t.name (pfx.getD "") = true) ∨
       (optTruthy kw = true ∧ pyContains t.name (kw.getD "") = true) ∨
       (optTruthy pfx = false ∧ optTruthy kw = false)) := by
  cases hp : optTruthy pfx <;> cases hk : optTruthy kw <;>
    cases hs : pyStartsWith t.name (pfx.getD "") <;>
    cases hc : pyContains t.name (kw.getD "") <;>
    simp [delFilter, hp, hk, hs, hc]

/-- C2: batch_delete candidate selection: a truthy token_ids list is used as
the candidate set verbatim regardless of the filters; otherwise a fetched
token is a candidate iff its name starts with a given prefix, or contains a
given keyword, or no filter is given; including the three concrete examples
of the claim. -/
theorem c2_delete_candidates :
    (∀ (i : Int) (rest : List Int) (pfx kw : Option String) (pages : Nat → List DToken)
        (fuel : Nat),
       selectCandidates pages fuel (some (i :: rest)) pfx kw =
         (i :: rest).map (fun tid => { id := tid, name := "(ID: " ++ toString tid ++ ")" })) ∧
    (∀ (pfx kw : Option String) (toks : List DToken) (t : DToken),
       t ∈ toks.filter (delFilter pfx kw) ↔
         t ∈ toks ∧
           ((optTruthy pfx = true ∧ pyStartsWith t.name (pfx.getD "") = true) ∨
            (optTruthy kw = true ∧ pyContains t.name (kw.getD "") = true) ∨
            (optTruthy pfx = false ∧ optTruthy kw = false))) ∧
    (selectCandidates exPages 2 none (some "a_") none).map DToken.id = [1, 3] ∧
    (selectCandidates exPages 2 none none none).map DToken.id = [1, 2, 3] ∧
    (selectCandidates exPages 2 (some [2]) (some "a_") none).map DToken.id = [2] := by
  refine ⟨?_, ?_, by decide, by decide, by decide⟩
  · intro i rest pfx kw pages fuel
    simp [selectCandidates, optListTruthy]
  · intro pfx kw toks t
    rw [List.mem_filter, delFilter_true_iff]

/-- C3 counterexample: a successful search response whose only item has an
empty key yields an empty mapping, so the returned item's name is absent from
the result, contradicting the claim that every returned item's name is mapped. -/
theorem c3_search_empty_key_counterexample :
    exSearchBodyEmptyKey.data = [{ name := "a", key := "" }] ∧
    search_tokens (SearchHttp.resp 200 (Except.ok exSearchBodyEmptyKey)) = [] ∧
    dictGet (search_tokens (SearchHttp.resp 200 (Except.ok exSearchBodyEmptyKey))) "a" = none :=
  ⟨rfl, by decide, by decide⟩

/-- C3 (amended): on HTTP 200 with the service success flag, search_tokens
maps each name of an item with non-empty name and non-empty key to "sk-"
prepended to the key of the last such item bearing that name; on any failure
(transport exception, non-200 status, JSON parse failure, or service-level
failure) it returns the empty mapping and does not raise. -/
theorem c3_search_amended :
    (∀ e, search_tokens (SearchHttp.exc e) = []) ∧
    (∀ status p, status ≠ 200 → search_tokens (SearchHttp.resp status p) = []) ∧
    (∀ e, search_tokens (SearchHttp.resp 200 (Except.error e)) = []) ∧
    (∀ b, b.success = false → search_tokens (SearchHttp.resp 200 (Except.ok b)) = []) ∧
    (∀ b n, b.success = true →
       dictGet (search_tokens (SearchHttp.resp 200 (Except.ok b))) n =
         ((validSearchItems b.data).reverse.find? (fun t => t.name == n)).map
           (fun t => "sk-" ++ t.key)) := by
  refine ⟨fun e => rfl, ?_, fun e => rfl, ?_, ?_⟩
  · intro status p h
    simp [search_tokens, h]
  · intro b h
    simp [search_tokens, h]
  · intro b n h
    simp only [search_tokens, if_pos rfl, h, if_pos]
    rw [dictGet_search_pairs]
    cases hf : (validSearchItems b.data).reverse.find? (fun t => t.name == n) <;>
      simp [Option.orElse, dictGet]

/-- C3 witness: the failure and success characterizations evaluated at
concrete responses. -/
theorem c3_search_witness :
    search_tokens (SearchHttp.resp 404 (Except.ok exSearchBodyA)) = [] ∧
    dictGet (search_tokens (SearchHttp.resp 200 (Except.ok exSearchBodyA))) "a" =
      ((validSearchItems exSearchBodyA.data).reverse.find? (fun t => t.name == "a")).map
        (fun t => "sk-" ++ t.key) :=
  ⟨c3_search_amended.2.1 404 (Except.ok exSearchBodyA) (by decide),
   c3_search_amended.2.2.2.2 exSearchBodyA "a" rfl⟩

/-- C7: a create call succeeds iff the HTTP status is 200 and the body's
service-level success flag is set; every failure result carries the service
message field when present, else the body's string form, else the transport
or parse exception string. -/
theorem c7_create_result :
    (∀ h, (∃ k, create_token h = CreateResult.ok k) ↔
       ∃ b, h = CreateHttp.resp 200 (Except.ok b) ∧ b.success = true) ∧
    (∀ e, create_token (CreateHttp.exc e) = CreateResult.err e) ∧
    (∀ status e, create_token (CreateHttp.resp status (Except.error e)) = CreateResult.err e) ∧
    (∀ status b, ¬ (status = 200 ∧ b.success = true) →
       create_token (CreateHttp.resp status (Except.ok b)) =
         CreateResult.err (b.message.getD b.raw)) := by
  refine ⟨?_, fun e => rfl, fun status e => rfl, ?_⟩
  · intro h
    constructor
    · rintro ⟨k, hk⟩
      cases h with
      | exc e => simp [create_token] at hk
      | resp status p =>
        cases p with
        | error e => simp [create_token] at hk
        | ok b =>
          by_cases hc : ((status == 200) && b.success) = true
          · rw [Bool.and_eq_true, beq_iff_eq] at hc
            exact ⟨b, by rw [hc.1], hc.2⟩
          · simp [create_token, hc] at hk
    · rintro ⟨b, rfl, hb⟩
      refine ⟨pyOrStr b.dataKey (pyOrStr b.topKey (pyOrStr b.dataToken b.topToken)), ?_⟩
      simp [create_token, hb]
  · intro status b hc
    have hfalse : ¬ (((status == 200) && b.success) = true) := by
      rw [Bool.and_eq_true, beq_iff_eq]
      exact hc
    simp [create_token, hfalse]

/-- C7 witness: a non-200 response with a parsed body fails and carries the
message-or-raw error. -/
theorem c7_create_witness :
    create_token (CreateHttp.resp 500 (Except.ok exCreateBody)) =
      CreateResult.err (exCreateBody.message.getD exCreateBody.raw) :=
  c7_create_result.2.2.2 500 exCreateBody (by decide)

/-- C8 counterexample: an item whose nested local_storage_data.user.id is
present but equal to 0 produces an account with user_id left unset, refuting
the claim that user_id is set whenever the field is present. -/
theorem c8_zero_id_counterexample :
    exItemZeroId.userId = some 0 ∧
    fetch_cookies_from_api [exItemZeroId] = [{ cookie := "n=v", user_id := none, name := "x" }] :=
  ⟨rfl, by decide⟩

/-- C8 (amended): the cookie API request carries page 1, page size 200 and the
fixed target domain; items whose detection status is "error" or "failed" are
skipped; every produced account's cookie string joins the name=value pairs of
entries with non-empty name and value using "; ", its name is the item's
custom name, and its user_id is set from local_storage_data.user.id exactly
when both nesting levels are dicts and the id is present and nonzero
(stringified), else left unset. -/
theorem c8_fetch_accounts_amended :
    cookieApiParams =
      { include_values := "true", domain := "anyrouter.top", page := 1, per_page := 200 } ∧
    (∀ it : ApiItem, (it.detection_status = "error" ∨ it.detection_status = "failed") →
       processItem it = none) ∧
    (∀ (it : ApiItem) (a : Account), processItem it = some a →
       a.cookie = joinSep "; " (cookiePairs it.cookies_data) ∧
       a.name = it.custom_name ∧ a.user_id = extractUserId it) ∧
    (∀ (it : ApiItem) (n : Int), it.lsIsDict = true → it.userIsDict = true →
       it.userId = some n → n ≠ 0 → extractUserId it = some (toString n)) ∧
    (∀ it : ApiItem, it.userId = none → extractUserId it = none) ∧
    (∀ items : List ApiItem, fetch_cookies_from_api items = items.filterMap processItem) := by
  refine ⟨rfl, ?_, ?_, ?_, ?_, fun items => rfl⟩
  · intro it h
    by_cases hd : it.isDict <;> simp [processItem, hd, h]
  · intro it a h
    simp only [processItem] at h
    split at h
    · exact absurd h (by simp)
    split at h
    · exact absurd h (by simp)
    split at h
    · exact absurd h (by simp)
    split at h
    · exact absurd h (by simp)
    injection h with h2
    rw [← h2]
    exact ⟨rfl, rfl, rfl⟩
  · intro it n h1 h2 h3 h4
    have hb : (n != 0) = true := by simp [h4]
    simp [extractUserId, h1, h2, h3, hb]
  · intro it h
    by_cases hb : it.lsIsDict && it.userIsDict <;> simp [extractUserId, hb, h]

/-- C8 witness: an "error" item is skipped, and a valid item with a nonzero
nested id gets a stringified user_id. -/
theorem c8_fetch_witness :
    processItem exItemErr = none ∧ extractUserId exItemOk = some (toString (7 : Int)) :=
  ⟨c8_fetch_accounts_amended.2.1 exItemErr (Or.inl rfl),
   c8_fetch_accounts_amended.2.2.2.1 exItemOk 7 rfl rfl rfl (by decide)⟩

/-- The create-call names issued by batch_create, unfolded. -/
theorem batch_create_createCalls (env : CEnv) (uid pfx : String) (count : Int)
    (draw : Nat → Fin 36) (st : List CreatedToken) :
    (batch_create env uid pfx count draw st).2.1 =
      ((List.range count.toNat).map (fun j => j + 1)).map (tokenNameFor pfx count draw) := rfl

/-- The search keywords issued by batch_create, unfolded. -/
theorem batch_create_searchCalls (env : CEnv) (uid pfx : String) (count : Int)
    (draw : Nat → Fin 36) (st : List CreatedToken) :
    (batch_create env uid pfx count draw st).2.2.1 =
      (if (((List.range count.toNat).map (fun j => j + 1)).filter
            (fun i => isCreateSuccess (create_token (env.createHttp i)))).map
            (tokenNameFor pfx count draw) = [] then []
       else [if count = 1 then "cc" else pfx]) := rfl

/-- C1 (amended): with count == 1 the single create call carries the fixed
literal name "cc" and any search call uses that same literal as keyword; with
count == N > 1 exactly N create calls are issued, each with a generated name
of the form prefix ++ "_" ++ an 8-character suffix over the lowercase-alnum
alphabet (names are NOT guaranteed distinct: equal random suffixes yield equal
names), and any search call uses the prefix as keyword. -/
theorem c1_create_names_amended (env : CEnv) (uid pfx : String) (count : Int)
    (draw : Nat → Fin 36) (st : List CreatedToken) :
    (count = 1 →
      (batch_create env uid pfx count draw st).2.1 = ["cc"] ∧
      ∀ kw ∈ (batch_create env uid pfx count draw st).2.2.1, kw = "cc") ∧
    (1 < count →
      (batch_create env uid pfx count draw st).2.1.length = count.toNat ∧
      (∀ n ∈ (batch_create env uid pfx count draw st).2.1,
         ∃ s, n = pfx ++ "_" ++ s ∧ s.data.length = 8 ∧ ∀ c ∈ s.data, c ∈ tokenAlphabet) ∧
      ∀ kw ∈ (batch_create env uid pfx count draw st).2.2.1, kw = pfx) := by
  constructor
  · intro h
    subst h
    constructor
    · rw [batch_create_createCalls]
      rfl
    · intro kw hkw
      rw [batch_create_searchCalls] at hkw
      split at hkw
      · simp at hkw
      · simp at hkw
        exact hkw
  · intro h
    have hne : ¬ count = 1 := by omega
    refine ⟨?_, ?_, ?_⟩
    · rw [batch_create_createCalls]
      simp
    · intro n hn
      rw [batch_create_createCalls, List.mem_map] at hn
      obtain ⟨i, hi, rfl⟩ := hn
      refine ⟨randSuffix draw i, by simp [tokenNameFor, hne], ?_, ?_⟩
      · have hd : (randSuffix draw i).data =
            (List.range 8).map (fun j => randChar (draw (8 * i + j))) := rfl
        rw [hd]
        simp
      · intro c hc
        have hd : (randSuffix draw i).data =
            (List.range 8).map (fun j => randChar (draw (8 * i + j))) := rfl
        rw [hd, List.mem_map] at hc
        obtain ⟨j, hj, rfl⟩ := hc
        exact randChar_mem _
    · intro kw hkw
      rw [batch_create_searchCalls] at hkw
      split at hkw
      · simp at hkw
      · simp [hne] at hkw
        exact hkw

/-- C1 witness: both branches of the amended claim evaluated at a concrete
environment, with count 1 and count 2. -/
theorem c1_create_names_witness :
    ((batch_create exCEnv "u" "p" 1 draw0 []).2.1 = ["cc"] ∧
      ∀ kw ∈ (batch_create exCEnv "u" "p" 1 draw0 []).2.2.1, kw = "cc") ∧
    ((batch_create exCEnv "u" "p" 2 draw0 []).2.1.length = (2 : Int).toNat ∧
      (∀ n ∈ (batch_create exCEnv "u" "p" 2 draw0 []).2.1,
         ∃ s, n = "p" ++ "_" ++ s ∧ s.data.length = 8 ∧ ∀ c ∈ s.data, c ∈ tokenAlphabet) ∧
      ∀ kw ∈ (batch_create exCEnv "u" "p" 2 draw0 []).2.2.1, kw = "p") :=
  ⟨(c1_create_names_amended exCEnv "u" "p" 1 draw0 []).1 rfl,
   (c1_create_names_amended exCEnv "u" "p" 2 draw0 []).2 (by decide)⟩

/-- C1 counterexample: with count = 2 and a randomness stream whose draws
collide, the two create calls carry the SAME name, refuting the claimed
distinctness of generated names. -/
theorem c1_duplicate_names_counterexample :
    (batch_create exCEnv "u" "p" 2 draw0 []).2.1 = ["p_aaaaaaaa", "p_aaaaaaaa"] ∧
    ¬ (batch_create exCEnv "u" "p" 2 draw0 []).2.1.Nodup := by
  constructor
  · decide
  · decide

/-- C10: with count <= 0 batch_create issues zero create calls and zero search
calls, returns the empty list, and leaves the accumulated created_tokens
collection unchanged. -/
theorem c10_nonpositive_count (env : CEnv) (uid pfx : String) (count : Int)
    (draw : Nat → Fin 36) (st : List CreatedToken) (h : count ≤ 0) :
    batch_create env uid pfx count draw st = ([], [], [], st) := by
  have h0 : count.toNat = 0 := Int.toNat_of_nonpos h
  simp [batch_create, h0]

/-- C10 witness: the property evaluated at count = -3 with a non-empty
accumulator. -/
theorem c10_nonpositive_count_witness :
    (-3 : Int) ≤ 0 ∧
    batch_create exCEnv "u" "p" (-3) draw0 [{ name := "t", key := "k", user_id := "u" }] =
      ([], [], [], [{ name := "t", key := "k", user_id := "u" }]) :=
  ⟨by decide,
   c10_nonpositive_count exCEnv "u" "p" (-3) draw0
     [{ name := "t", key := "k", user_id := "u" }] (by decide)⟩
